import Mathlib

/-!
Verification of the FusionSolar custom-view relay (src/server.js) and its
browser dashboard component.  The backend is a stateless HTTP relay with two
POST handlers (a login handler that extracts a session token from upstream
response headers, and a generic proxy handler that forwards an arbitrary
vendor endpoint), plus a React frontend holding session state and folding
per-plant telemetry into dashboard totals.

Modelling conventions:
* JSON values are modelled by `JVal`; JavaScript numbers are idealised as
  rationals.  A parsed JSON request or response body is an association list
  `JObj` with unique keys (JavaScript objects cannot carry duplicate keys).
* JavaScript truthiness is `jsTruthyVal` / `jsTruthy` (an absent field is
  `undefined`, hence falsy).
* `fetch` response headers are a list of name/value pairs; `Headers.get`
  is case-insensitive, modelled by lower-casing names (`headerGet`).
* Each Express handler is split into a pure validation stage (which either
  rejects locally — no upstream request is made — or describes the forwarded
  request) and a response stage that is a function of the upstream outcome.
  The upstream outcome is a parameter: a status/statusText/headers/body
  quadruple, where the body is `Except` to model `response.json()` throwing,
  or a network error whose message feeds the catch-all 500 response.
-/

set_option autoImplicit false

namespace FusionSolar

/-- JSON values exchanged by the relay; JS numbers idealised as rationals. -/
inductive JVal where
  | str (s : String)
  | num (q : ℚ)
  | bool (b : Bool)
  | null
  | obj (fields : List (String × JVal))
  | arr (elems : List JVal)

/-- A parsed JSON object body: an association list of fields. -/
abbrev JObj := List (String × JVal)

/-- Field access `o.k` on a JavaScript object (first matching key). -/
def lookupField : JObj → String → Option JVal
  | [], _ => none
  | (k', v) :: rest, k => if k' = k then some v else lookupField rest k

/-- Rest destructuring `const { k, ...rest } = o`: `rest` is `o` without `k`. -/
def removeField : JObj → String → JObj
  | [], _ => []
  | (k', v) :: rest, k =>
    if k' = k then removeField rest k else (k', v) :: removeField rest k

/-- Property assignment `o.k = v`: overwrite in place, or append. -/
def setField : JObj → String → JVal → JObj
  | [], k, v => [(k, v)]
  | (k', v') :: rest, k, v =>
    if k' = k then (k, v) :: rest else (k', v') :: setField rest k v

/-- JavaScript truthiness of a value. -/
def jsTruthyVal : JVal → Bool
  | .str s => !s.isEmpty
  | .num q => decide (q ≠ 0)
  | .bool b => b
  | .null => false
  | .obj _ => true
  | .arr _ => true

/-- JavaScript truthiness of a possibly-absent field (`undefined` is falsy). -/
def jsTruthy : Option JVal → Bool
  | none => false
  | some v => jsTruthyVal v

/-- ASCII lower-casing of an HTTP header name (header names are ASCII). -/
def lowerName (s : String) : String :=
  ⟨s.data.map Char.toLower⟩

/-- `response.headers.get(name)`: case-insensitive lookup, per the Fetch
headers contract honoured by node-fetch. -/
def headerGet : List (String × String) → String → Option String
  | [], _ => none
  | (n', v) :: rest, n =>
    if lowerName n' = lowerName n then some v else headerGet rest n

/-- JavaScript `a || b` on nullable strings: an empty string is falsy. -/
def jsOrStr (a b : Option String) : Option String :=
  match a with
  | some s => if s.isEmpty then b else some s
  | none => b

/-- Token extraction of the login handler:
`headers.get('xsrf-token') || headers.get('XSRF-TOKEN') || headers.get('X-XSRF-TOKEN')`
followed by the `if (xsrfToken)` truthiness test guarding `data.xsrfToken = xsrfToken`.
Yields the token only when the chain produced a non-empty string. -/
def extractXsrf (hs : List (String × String)) : Option String :=
  match jsOrStr (headerGet hs "xsrf-token")
      (jsOrStr (headerGet hs "XSRF-TOKEN") (headerGet hs "X-XSRF-TOKEN")) with
  | some s => if s.isEmpty then none else some s
  | none => none

/-- Outcome of the `fetch` to the vendor: a response (with `response.json()`
modelled as `Except`, an `error` being the thrown parse failure's message), or
a thrown network error caught by the handler's `catch`. -/
inductive UpstreamResult where
  | response (status : Nat) (statusText : String)
      (headers : List (String × String)) (body : Except String JObj)
  | networkError (message : String)

/-- What the Express handler sends back: an HTTP status and a JSON body. -/
structure RelayResponse where
  status : Nat
  body : JObj

/-- `response.ok`: status in the range [200, 300). -/
def okStatus (s : Nat) : Bool := decide (200 ≤ s) && decide (s < 300)

/-- `{ success: false, error: msg }`. -/
def errorBody (msg : String) : JObj :=
  [("success", .bool false), ("error", .str msg)]

/-- The catch-all body `{ success: false, error: label, details: message }`. -/
def catchBody (label details : String) : JObj :=
  [("success", .bool false), ("error", .str label), ("details", .str details)]

/-- First stage of `POST /api/huawei/login`: local validation, before any
upstream request. -/
inductive LoginStep where
  | reject (resp : RelayResponse)
  | forward (userName systemCode : JVal)

/-- Validation of the login handler: `if (!userName || !systemCode)` yields a
400, otherwise the two fields are forwarded to the fixed upstream login URL. -/
def loginValidate (req : JObj) : LoginStep :=
  let userName := lookupField req "userName"
  let systemCode := lookupField req "systemCode"
  if !jsTruthy userName || !jsTruthy systemCode then
    .reject ⟨400, errorBody "Username and system code are required"⟩
  else
    .forward (userName.getD .null) (systemCode.getD .null)

/-- Response stage of the login handler: mirror a non-2xx upstream status with
`Login API error: <status> <statusText>`; on 2xx parse the body, extract the
XSRF token from the headers and, when found, attach it as `xsrfToken`; thrown
errors (network failure, JSON parse failure) hit the catch-all 500. -/
def loginRespond (result : UpstreamResult) : RelayResponse :=
  match result with
  | .networkError m => ⟨500, catchBody "Login proxy server error" m⟩
  | .response s st hdrs body =>
    if !okStatus s then
      ⟨s, errorBody ("Login API error: " ++ toString s ++ " " ++ st)⟩
    else
      match body with
      | .error m => ⟨500, catchBody "Login proxy server error" m⟩
      | .ok data =>
        match extractXsrf hdrs with
        | some t => ⟨200, setField data "xsrfToken" (.str t)⟩
        | none => ⟨200, data⟩

/-- The full login handler, parametric in the upstream outcome: when
validation rejects, no upstream request is made and the rejection is the
response. -/
def loginHandler (req : JObj) (upstream : UpstreamResult) : RelayResponse :=
  match loginValidate req with
  | .reject r => r
  | .forward _ _ => loginRespond upstream

/-- Upstream URL of the generic proxy: `https://<vendor-host>/thirdData/<endpoint>`. -/
def vendorUrl (endpoint : String) : String :=
  "https://intl.fusionsolar.huawei.com/thirdData/" ++ endpoint

/-- First stage of `POST /api/huawei/:endpoint`: a local rejection (no
upstream request), the `TypeError` thrown by `.trim()` on a truthy non-string
`stationCodes` (caught by the handler's `catch`), or the forwarded request:
URL, token placed in the `XSRF-TOKEN` header, and the body to re-serialise. -/
inductive ProxyStep where
  | reject (resp : RelayResponse)
  | trimTypeError
  | forward (url : String) (token : JVal) (body : JObj)

/-- Validation of the generic proxy handler:
`const { xsrfToken, ...body } = req.body`; 400 when `xsrfToken` is falsy;
when the endpoint is `getStationRealKpi`, 400 when `body.stationCodes` is
falsy or trims to the empty string (`.trim()` throws on a truthy
non-string); otherwise forward `body` with the token in the header. -/
def proxyValidate (endpoint : String) (req : JObj) : ProxyStep :=
  let xsrfToken := lookupField req "xsrfToken"
  let body := removeField req "xsrfToken"
  if !jsTruthy xsrfToken then
    .reject ⟨400, errorBody "XSRF token is required"⟩
  else if endpoint = "getStationRealKpi" then
    match lookupField body "stationCodes" with
    | none =>
      .reject ⟨400, errorBody "stationCodes parameter is required and cannot be empty"⟩
    | some v =>
      if !jsTruthyVal v then
        .reject ⟨400, errorBody "stationCodes parameter is required and cannot be empty"⟩
      else
        match v with
        | .str s =>
          if s.trim = "" then
            .reject ⟨400, errorBody "stationCodes parameter is required and cannot be empty"⟩
          else
            .forward (vendorUrl endpoint) (xsrfToken.getD .null) body
        | _ => .trimTypeError
  else
    .forward (vendorUrl endpoint) (xsrfToken.getD .null) body

/-- Response stage of the generic proxy: mirror a non-2xx upstream status with
`API error: <status> <statusText>`; on 2xx pass the parsed JSON body through
unchanged (`failCode` 407 / 20010 are only logged); thrown errors hit the
catch-all 500. -/
def proxyRespond (result : UpstreamResult) : RelayResponse :=
  match result with
  | .networkError m => ⟨500, catchBody "Proxy server error" m⟩
  | .response s st _ body =>
    if !okStatus s then
      ⟨s, errorBody ("API error: " ++ toString s ++ " " ++ st)⟩
    else
      match body with
      | .error m => ⟨500, catchBody "Proxy server error" m⟩
      | .ok data => ⟨200, data⟩

/-- The full generic proxy handler, parametric in the upstream outcome.  The
`details` text of the `trimTypeError` branch is the V8 TypeError message. -/
def proxyHandler (endpoint : String) (req : JObj) (upstream : UpstreamResult) :
    RelayResponse :=
  match proxyValidate endpoint req with
  | .reject r => r
  | .trimTypeError =>
    ⟨500, catchBody "Proxy server error" "body.stationCodes.trim is not a function"⟩
  | .forward _ _ _ => proxyRespond upstream

/-- A plant entry as built by `fetchStationList`. -/
structure Plant where
  code : String
  name : String
  capacity : String

/-- The login form state. -/
structure Credentials where
  userName : String
  systemCode : String

/-- The per-plant `dataItemMap` fields read by the dashboard; a `none` field
is absent (or `null`) and `parseFloat(x || 0)` turns it into `0`.  Numeric
values are idealised as rationals. -/
structure DataItemMap where
  day_power : Option ℚ
  day_income : Option ℚ
  month_power : Option ℚ
  total_power : Option ℚ
  day_on_grid_energy : Option ℚ

/-- One element of `realTimeData`: a per-plant telemetry snapshot whose
`dataItemMap` may be absent (`plant.dataItemMap || {}`). -/
structure PlantSnapshot where
  stationCode : String
  dataItemMap : Option DataItemMap

/-- The `useState` pieces of the `HuaweiSolarApp` component. -/
structure AppState where
  isAuthenticated : Bool
  xsrfToken : String
  availablePlants : List Plant
  selectedPlants : List String
  realTimeData : List PlantSnapshot
  loading : Bool
  loginError : String
  showPassword : Bool
  credentials : Credentials

/-- The `handleLogout` callback: discards the session token and resets the
authentication flag, plant lists, telemetry, credentials and error message. -/
def handleLogout (s : AppState) : AppState :=
  { s with
    isAuthenticated := false
    xsrfToken := ""
    availablePlants := []
    selectedPlants := []
    realTimeData := []
    credentials := { userName := "", systemCode := "" }
    loginError := "" }

/-- The accumulator of `calculateTotals`. -/
structure Totals where
  totalDayPower : ℚ
  totalRevenue : ℚ
  totalMonthPower : ℚ
  totalLifetimePower : ℚ
  totalOnGridEnergy : ℚ

/-- `plant.dataItemMap || {}` when the map is absent. -/
def emptyDataItemMap : DataItemMap :=
  { day_power := none, day_income := none, month_power := none
    total_power := none, day_on_grid_energy := none }

/-- The reducer body of `calculateTotals`. -/
def totalsStep (totals : Totals) (plant : PlantSnapshot) : Totals :=
  let data := plant.dataItemMap.getD emptyDataItemMap
  { totalDayPower := totals.totalDayPower + (data.day_power).getD 0
    totalRevenue := totals.totalRevenue + (data.day_income).getD 0
    totalMonthPower := totals.totalMonthPower + (data.month_power).getD 0
    totalLifetimePower := totals.totalLifetimePower + (data.total_power).getD 0
    totalOnGridEnergy := totals.totalOnGridEnergy + (data.day_on_grid_energy).getD 0 }

/-- `calculateTotals`: fold the telemetry snapshots into running totals,
starting from all-zero totals. -/
def calculateTotals (realTimeData : List PlantSnapshot) : Totals :=
  realTimeData.foldl totalsStep
    { totalDayPower := 0, totalRevenue := 0, totalMonthPower := 0
      totalLifetimePower := 0, totalOnGridEnergy := 0 }

/-- The `day_power` contribution of one snapshot: zero when the map or the
field is missing. -/
def snapshotDayPower (p : PlantSnapshot) : ℚ :=
  ((p.dataItemMap.getD emptyDataItemMap).day_power).getD 0

/-- The `day_income` contribution of one snapshot: zero when the map or the
field is missing. -/
def snapshotDayIncome (p : PlantSnapshot) : ℚ :=
  ((p.dataItemMap.getD emptyDataItemMap).day_income).getD 0

theorem lookupField_removeField_self (o : JObj) (k : String) :
    lookupField (removeField o k) k = none := by
  induction o with
  | nil => rfl
  | cons p rest ih =>
    obtain ⟨k', v⟩ := p
    by_cases h : k' = k
    · simpa [removeField, h] using ih
    · simpa [removeField, lookupField, h] using ih

theorem lookupField_removeField_ne (o : JObj) (k k' : String) (h : k' ≠ k) :
    lookupField (removeField o k) k' = lookupField o k' := by
  induction o with
  | nil => rfl
  | cons p rest ih =>
    obtain ⟨a, v⟩ := p
    by_cases ha : a = k
    · subst ha
      simpa [removeField, lookupField, Ne.symm h] using ih
    · by_cases ha' : a = k'
      · subst ha'
        simp [removeField, lookupField, ha]
      · simpa [removeField, lookupField, ha, ha'] using ih

theorem jsTruthy_lookupField_some {o : JObj} {k : String}
    (h : jsTruthy (lookupField o k) = true) :
    ∃ v, lookupField o k = some v ∧ jsTruthyVal v = true := by
  cases hv : lookupField o k with
  | none => rw [hv] at h; exact absurd h (by simp [jsTruthy])
  | some v => rw [hv] at h; exact ⟨v, rfl, h⟩

theorem headerGet_mem {hs : List (String × String)} {n v : String}
    (h : headerGet hs n = some v) :
    ∃ nm, (nm, v) ∈ hs ∧ lowerName nm = lowerName n := by
  induction hs with
  | nil => exact absurd h (by simp [headerGet])
  | cons p rest ih =>
    obtain ⟨nm, val⟩ := p
    by_cases hl : lowerName nm = lowerName n
    · rw [headerGet, if_pos hl] at h
      obtain rfl : val = v := by injection h
      exact ⟨nm, List.mem_cons_self _ _, hl⟩
    · rw [headerGet, if_neg hl] at h
      obtain ⟨nm', hmem, hlow⟩ := ih h
      exact ⟨nm', List.mem_cons_of_mem _ hmem, hlow⟩

theorem headerGet_eq_none {hs : List (String × String)} {n : String}
    (h : ∀ p ∈ hs, lowerName p.1 ≠ lowerName n) :
    headerGet hs n = none := by
  induction hs with
  | nil => rfl
  | cons p rest ih =>
    obtain ⟨nm, val⟩ := p
    rw [headerGet, if_neg (h (nm, val) (List.mem_cons_self _ _))]
    exact ih fun q hq => h q (List.mem_cons_of_mem _ hq)

theorem jsOrStr_some {a b : Option String} {t : String} (h : jsOrStr a b = some t) :
    a = some t ∨ b = some t := by
  cases a with
  | none => exact Or.inr (by simpa [jsOrStr] using h)
  | some s =>
    by_cases hs : s.isEmpty
    · simp only [jsOrStr, hs, if_true] at h
      exact Or.inr h
    · simp only [jsOrStr, hs, if_false] at h
      exact Or.inl h

theorem extractXsrf_some {hs : List (String × String)} {t : String}
    (h : extractXsrf hs = some t) :
    t ≠ "" ∧ ∃ nm, (nm, t) ∈ hs ∧
      (lowerName nm = "xsrf-token" ∨ lowerName nm = "x-xsrf-token") := by
  unfold extractXsrf at h
  cases hchain : jsOrStr (headerGet hs "xsrf-token")
      (jsOrStr (headerGet hs "XSRF-TOKEN") (headerGet hs "X-XSRF-TOKEN")) with
  | none => rw [hchain] at h; exact absurd h (by simp)
  | some s =>
    rw [hchain] at h
    by_cases hem : s.isEmpty
    · simp [hem] at h
    · simp only [hem, if_false] at h
      obtain rfl : s = t := by injection h
      refine ⟨fun hnil => hem (by rw [hnil]; rfl), ?_⟩
      rcases jsOrStr_some hchain with h1 | hrest
      · obtain ⟨nm, hmem, hlow⟩ := headerGet_mem h1
        exact ⟨nm, hmem, Or.inl (by rw [hlow]; rfl)⟩
      · rcases jsOrStr_some hrest with h2 | h3
        · obtain ⟨nm, hmem, hlow⟩ := headerGet_mem h2
          exact ⟨nm, hmem, Or.inl (by rw [hlow]; rfl)⟩
        · obtain ⟨nm, hmem, hlow⟩ := headerGet_mem h3
          exact ⟨nm, hmem, Or.inr (by rw [hlow]; rfl)⟩

theorem extractXsrf_eq_none {hs : List (String × String)}
    (h : ∀ p ∈ hs, lowerName p.1 ≠ "xsrf-token" ∧ lowerName p.1 ≠ "x-xsrf-token") :
    extractXsrf hs = none := by
  have e1 : lowerName "xsrf-token" = "xsrf-token" := rfl
  have e2 : lowerName "XSRF-TOKEN" = "xsrf-token" := rfl
  have e3 : lowerName "X-XSRF-TOKEN" = "x-xsrf-token" := rfl
  have h1 : headerGet hs "xsrf-token" = none :=
    headerGet_eq_none fun p hp => by rw [e1]; exact (h p hp).1
  have h2 : headerGet hs "XSRF-TOKEN" = none :=
    headerGet_eq_none fun p hp => by rw [e2]; exact (h p hp).1
  have h3 : headerGet hs "X-XSRF-TOKEN" = none :=
    headerGet_eq_none fun p hp => by rw [e3]; exact (h p hp).2
  simp [extractXsrf, h1, h2, h3, jsOrStr]

theorem foldl_totalsStep_dayPower (l : List PlantSnapshot) (acc : Totals) :
    (l.foldl totalsStep acc).totalDayPower
      = acc.totalDayPower + (l.map snapshotDayPower).sum := by
  induction l generalizing acc with
  | nil => simp
  | cons p rest ih =>
    rw [List.foldl_cons, ih]
    simp [totalsStep, snapshotDayPower]
    ring

theorem foldl_totalsStep_revenue (l : List PlantSnapshot) (acc : Totals) :
    (l.foldl totalsStep acc).totalRevenue
      = acc.totalRevenue + (l.map snapshotDayIncome).sum := by
  induction l generalizing acc with
  | nil => simp
  | cons p rest ih =>
    rw [List.foldl_cons, ih]
    simp [totalsStep, snapshotDayIncome]
    ring

/-- C2: For every list of N plant snapshots, `calculateTotals` returns totals
in which `totalDayPower` equals the arithmetic sum of the snapshots'
`dataItemMap.day_power` values and `totalRevenue` equals the arithmetic sum of
their `dataItemMap.day_income` values, a missing `dataItemMap` or a missing
field contributing zero to the sum. -/
theorem calculateTotals_sums (l : List PlantSnapshot) :
    (calculateTotals l).totalDayPower = (l.map snapshotDayPower).sum ∧
    (calculateTotals l).totalRevenue = (l.map snapshotDayIncome).sum := by
  constructor
  · rw [calculateTotals, foldl_totalsStep_dayPower]
    simp
  · rw [calculateTotals, foldl_totalsStep_revenue]
    simp

/-- C8: After `handleLogout` runs, the session token is discarded (the empty
string), `isAuthenticated` is false, and the plant list, selected plants,
telemetry data, credentials and error message are reset to their initial
empty values. -/
theorem handleLogout_resets_state (s : AppState) :
    (handleLogout s).xsrfToken = "" ∧
    (handleLogout s).isAuthenticated = false ∧
    (handleLogout s).availablePlants = [] ∧
    (handleLogout s).selectedPlants = [] ∧
    (handleLogout s).realTimeData = [] ∧
    (handleLogout s).credentials = { userName := "", systemCode := "" } ∧
    (handleLogout s).loginError = "" :=
  ⟨rfl, rfl, rfl, rfl, rfl, rfl, rfl⟩

/-- C4: A generic proxy request whose body lacks a truthy `xsrfToken` is
rejected locally with 400 `XSRF token is required`, whatever the upstream
would answer (so no vendor call is made); and this is the guard that forces a
token before any forwarded vendor call: whenever validation forwards a
request, the token was present and truthy. -/
theorem proxy_requires_xsrfToken (endpoint : String) (req : JObj) :
    (jsTruthy (lookupField req "xsrfToken") = false →
      proxyValidate endpoint req = .reject ⟨400, errorBody "XSRF token is required"⟩
      ∧ ∀ up, proxyHandler endpoint req up = ⟨400, errorBody "XSRF token is required"⟩)
    ∧ (∀ u t b, proxyValidate endpoint req = .forward u t b →
        jsTruthy (lookupField req "xsrfToken") = true) := by
  constructor
  · intro h
    have hv : proxyValidate endpoint req
        = .reject ⟨400, errorBody "XSRF token is required"⟩ := by
      simp [proxyValidate, h]
    exact ⟨hv, fun up => by simp [proxyHandler, hv]⟩
  · intro u t b hf
    by_contra hne
    have h : jsTruthy (lookupField req "xsrfToken") = false := by
      cases hx : jsTruthy (lookupField req "xsrfToken") with
      | true => exact absurd hx hne
      | false => rfl
    simp [proxyValidate, h] at hf

/-- Witness for C4 at a concrete tokenless request and concrete upstream. -/
theorem proxy_requires_xsrfToken_witness :
    proxyValidate "getStationList" [("a", JVal.str "1")]
      = .reject ⟨400, errorBody "XSRF token is required"⟩
    ∧ proxyHandler "getStationList" [("a", JVal.str "1")]
        (.response 200 "OK" [] (.ok [])) = ⟨400, errorBody "XSRF token is required"⟩ :=
  ⟨((proxy_requires_xsrfToken "getStationList" [("a", JVal.str "1")]).1 rfl).1,
   ((proxy_requires_xsrfToken "getStationList" [("a", JVal.str "1")]).1 rfl).2
     (.response 200 "OK" [] (.ok []))⟩

/-- C3: A `getStationRealKpi` request carrying a truthy `xsrfToken` whose
`stationCodes` is absent, empty or blank is rejected locally with 400 and the
fixed message, whatever the upstream would answer (no vendor call is made). -/
theorem getStationRealKpi_requires_stationCodes (req : JObj)
    (hTok : jsTruthy (lookupField req "xsrfToken") = true)
    (hSC : lookupField req "stationCodes" = none ∨
      ∃ s, lookupField req "stationCodes" = some (JVal.str s) ∧ s.trim = "") :
    proxyValidate "getStationRealKpi" req
      = .reject ⟨400, errorBody "stationCodes parameter is required and cannot be empty"⟩
    ∧ ∀ up, proxyHandler "getStationRealKpi" req up
      = ⟨400, errorBody "stationCodes parameter is required and cannot be empty"⟩ := by
  have hbody : lookupField (removeField req "xsrfToken") "stationCodes"
      = lookupField req "stationCodes" :=
    lookupField_removeField_ne req "xsrfToken" "stationCodes" (by decide)
  have hv : proxyValidate "getStationRealKpi" req
      = .reject ⟨400, errorBody "stationCodes parameter is required and cannot be empty"⟩ := by
    rcases hSC with hnone | ⟨s, hsome, htrim⟩
    · simp [proxyValidate, hTok, hbody, hnone]
    · by_cases hse : s.isEmpty
      · have hfv : jsTruthyVal (JVal.str s) = false := by simp [jsTruthyVal, hse]
        simp [proxyValidate, hTok, hbody, hsome, hfv]
      · have htv : jsTruthyVal (JVal.str s) = true := by simp [jsTruthyVal, hse]
        simp [proxyValidate, hTok, hbody, hsome, htv, htrim]
  exact ⟨hv, fun up => by simp [proxyHandler, hv]⟩

/-- Witness for C3: token present, `stationCodes` absent. -/
theorem getStationRealKpi_requires_stationCodes_witness :
    proxyValidate "getStationRealKpi" [("xsrfToken", JVal.str "tok")]
      = .reject ⟨400, errorBody "stationCodes parameter is required and cannot be empty"⟩ :=
  (getStationRealKpi_requires_stationCodes [("xsrfToken", JVal.str "tok")]
    rfl (Or.inl rfl)).1

/-- C5: A login request lacking a truthy `userName` or `systemCode` is
rejected locally with 400 and a `success:false` body, whatever the upstream
would answer (no vendor call is made). -/
theorem login_requires_credentials (req : JObj)
    (h : jsTruthy (lookupField req "userName") = false ∨
         jsTruthy (lookupField req "systemCode") = false) :
    loginValidate req = .reject ⟨400, errorBody "Username and system code are required"⟩
    ∧ (∀ up, loginHandler req up
        = ⟨400, errorBody "Username and system code are required"⟩)
    ∧ lookupField (errorBody "Username and system code are required") "success"
      = some (JVal.bool false) := by
  have hv : loginValidate req
      = .reject ⟨400, errorBody "Username and system code are required"⟩ := by
    rcases h with h | h
    · simp [loginValidate, h]
    · simp [loginValidate, h]
  exact ⟨hv, fun up => by simp [loginHandler, hv], rfl⟩

/-- Witness for C5: both credentials absent. -/
theorem login_requires_credentials_witness :
    loginValidate [] = .reject ⟨400, errorBody "Username and system code are required"⟩ :=
  (login_requires_credentials [] (Or.inl rfl)).1

/-- C9: In the generic proxy handler the `xsrfToken` check runs before the
`stationCodes` check: a `getStationRealKpi` request missing both fields gets
the 400 with the XSRF message, which is not the stationCodes message. -/
theorem xsrfToken_check_precedes_stationCodes_check (req : JObj)
    (h1 : lookupField req "xsrfToken" = none)
    (_h2 : lookupField req "stationCodes" = none) :
    proxyValidate "getStationRealKpi" req
      = .reject ⟨400, errorBody "XSRF token is required"⟩
    ∧ errorBody "XSRF token is required"
      ≠ errorBody "stationCodes parameter is required and cannot be empty" := by
  refine ⟨by simp [proxyValidate, h1, jsTruthy], fun hcontra => ?_⟩
  simp [errorBody] at hcontra

/-- Witness for C9: the empty request body misses both fields. -/
theorem xsrfToken_check_precedes_stationCodes_check_witness :
    proxyValidate "getStationRealKpi" []
      = .reject ⟨400, errorBody "XSRF token is required"⟩ :=
  (xsrfToken_check_precedes_stationCodes_check [] rfl rfl).1

/-- C10: Whenever proxy validation forwards a request, the forwarded body is
the request body with exactly the `xsrfToken` field removed (every other
field looked up unchanged, and no `xsrfToken` field remains), the token
placed in the `XSRF-TOKEN` header is exactly the request's `xsrfToken` value,
and the URL is the vendor URL of the endpoint. -/
theorem forwarded_body_strips_token (endpoint : String) (req : JObj)
    (u : String) (tok : JVal) (fwd : JObj)
    (h : proxyValidate endpoint req = .forward u tok fwd) :
    fwd = removeField req "xsrfToken"
    ∧ lookupField fwd "xsrfToken" = none
    ∧ (∀ k, k ≠ "xsrfToken" → lookupField fwd k = lookupField req k)
    ∧ lookupField req "xsrfToken" = some tok
    ∧ u = vendorUrl endpoint := by
  have htr : jsTruthy (lookupField req "xsrfToken") = true := by
    by_contra hne
    have hfalse : jsTruthy (lookupField req "xsrfToken") = false := by
      cases hx : jsTruthy (lookupField req "xsrfToken") with
      | true => exact absurd hx hne
      | false => rfl
    simp [proxyValidate, hfalse] at h
  obtain ⟨v, hv, htv⟩ := jsTruthy_lookupField_some htr
  have hjs : jsTruthy (some v) = true := by simp [jsTruthy, htv]
  have huf : u = vendorUrl endpoint ∧ tok = v ∧ fwd = removeField req "xsrfToken" := by
    by_cases he : endpoint = "getStationRealKpi"
    · subst he
      cases hsc : lookupField (removeField req "xsrfToken") "stationCodes" with
      | none => simp [proxyValidate, hv, hjs, hsc] at h
      | some w =>
        cases w with
        | str s =>
          by_cases hse : s.isEmpty
          · have hfv : jsTruthyVal (JVal.str s) = false := by simp [jsTruthyVal, hse]
            simp [proxyValidate, hv, hjs, hsc, hfv] at h
          · have htvs : jsTruthyVal (JVal.str s) = true := by simp [jsTruthyVal, hse]
            by_cases htrim : s.trim = ""
            · simp [proxyValidate, hv, hjs, hsc, htvs, htrim] at h
            · simp [proxyValidate, hv, hjs, hsc, htvs, htrim] at h
              exact ⟨h.1.symm, h.2.1.symm, h.2.2.symm⟩
        | num q =>
          rcases Bool.eq_false_or_eq_true (jsTruthyVal (JVal.num q)) with hw | hw <;>
            simp [proxyValidate, hv, hjs, hsc, hw] at h
        | bool c =>
          rcases Bool.eq_false_or_eq_true (jsTruthyVal (JVal.bool c)) with hw | hw <;>
            simp [proxyValidate, hv, hjs, hsc, hw] at h
        | null => simp [proxyValidate, hv, hjs, hsc, jsTruthyVal] at h
        | obj f => simp [proxyValidate, hv, hjs, hsc, jsTruthyVal] at h
        | arr es => simp [proxyValidate, hv, hjs, hsc, jsTruthyVal] at h
    · simp [proxyValidate, hv, hjs, he] at h
      exact ⟨h.1.symm, h.2.1.symm, h.2.2.symm⟩
  obtain ⟨hu, htok, hfwd⟩ := huf
  subst hfwd
  refine ⟨rfl, lookupField_removeField_self req "xsrfToken",
    fun k hk => lookupField_removeField_ne req "xsrfToken" k hk, ?_, hu⟩
  rw [hv, htok]

/-- Witness for C10 at a concrete forwarded request. -/
theorem forwarded_body_strips_token_witness :
    lookupField [("a", JVal.str "1")] "xsrfToken" = none
    ∧ lookupField [("xsrfToken", JVal.str "tok"), ("a", JVal.str "1")] "xsrfToken"
        = some (JVal.str "tok") :=
  ⟨(forwarded_body_strips_token "getStationList"
      [("xsrfToken", JVal.str "tok"), ("a", JVal.str "1")]
      (vendorUrl "getStationList") (JVal.str "tok") [("a", JVal.str "1")] rfl).2.1,
   (forwarded_body_strips_token "getStationList"
      [("xsrfToken", JVal.str "tok"), ("a", JVal.str "1")]
      (vendorUrl "getStationList") (JVal.str "tok") [("a", JVal.str "1")] rfl).2.2.2.1⟩

/-- C6: When a validated request (login or generic proxy) meets a non-2xx
upstream response, the relay answers with the same status code and a
`success:false` body whose error string embeds the upstream status and status
text (`Login API error: <status> <statusText>` and
`API error: <status> <statusText>` respectively). -/
theorem upstream_error_mirroring (loginReq proxyReq : JObj) (endpoint : String)
    (s : Nat) (st : String) (hdrs : List (String × String)) (b : Except String JObj)
    (hU : jsTruthy (lookupField loginReq "userName") = true)
    (hS : jsTruthy (lookupField loginReq "systemCode") = true)
    (hP : ∃ u t bd, proxyValidate endpoint proxyReq = .forward u t bd)
    (hok : okStatus s = false) :
    loginHandler loginReq (.response s st hdrs b)
      = ⟨s, errorBody ("Login API error: " ++ toString s ++ " " ++ st)⟩
    ∧ proxyHandler endpoint proxyReq (.response s st hdrs b)
      = ⟨s, errorBody ("API error: " ++ toString s ++ " " ++ st)⟩ := by
  obtain ⟨u, t, bd, hPv⟩ := hP
  constructor
  · simp [loginHandler, loginValidate, hU, hS, loginRespond, hok]
  · simp [proxyHandler, hPv, proxyRespond, hok]

/-- Witness for C6: upstream 500 mirrored by both handlers. -/
theorem upstream_error_mirroring_witness :
    loginHandler [("userName", JVal.str "u"), ("systemCode", JVal.str "c")]
      (.response 500 "Internal Server Error" [] (.ok []))
      = ⟨500, errorBody ("Login API error: " ++ toString (500 : Nat)
          ++ " " ++ "Internal Server Error")⟩
    ∧ proxyHandler "getStationList" [("xsrfToken", JVal.str "tok")]
      (.response 500 "Internal Server Error" [] (.ok []))
      = ⟨500, errorBody ("API error: " ++ toString (500 : Nat)
          ++ " " ++ "Internal Server Error")⟩ :=
  upstream_error_mirroring [("userName", JVal.str "u"), ("systemCode", JVal.str "c")]
    [("xsrfToken", JVal.str "tok")] "getStationList" 500 "Internal Server Error" []
    (.ok []) rfl rfl ⟨vendorUrl "getStationList", JVal.str "tok", [], rfl⟩ rfl

/-- C7: When a validated generic proxy request meets a 2xx upstream response
with a parsed JSON body, the relay returns that body unchanged with status
200 — including bodies with `success:false` and `failCode` 407 (rate limit)
or 20010 (invalid station codes), which are only logged. -/
theorem proxy_success_passthrough (endpoint : String) (req : JObj)
    (u : String) (t : JVal) (bd : JObj)
    (hV : proxyValidate endpoint req = .forward u t bd)
    (s : Nat) (st : String) (hdrs : List (String × String)) (data : JObj)
    (hok : okStatus s = true) :
    proxyHandler endpoint req (.response s st hdrs (.ok data)) = ⟨200, data⟩ := by
  simp [proxyHandler, hV, proxyRespond, hok]

/-- Witness for C7: a rate-limited (`failCode` 407) upstream body is passed
through unchanged. -/
theorem proxy_success_passthrough_witness :
    proxyHandler "getStationList" [("xsrfToken", JVal.str "tok")]
      (.response 200 "OK" []
        (.ok [("success", JVal.bool false), ("failCode", JVal.num 407)]))
      = ⟨200, [("success", JVal.bool false), ("failCode", JVal.num 407)]⟩ :=
  proxy_success_passthrough "getStationList" [("xsrfToken", JVal.str "tok")]
    (vendorUrl "getStationList") (JVal.str "tok") [] rfl 200 "OK" []
    [("success", JVal.bool false), ("failCode", JVal.num 407)] rfl

/-- C1 counterexample: the upstream 2xx response carries a header named
`XSRF-TOKEN` (with the empty string as value, which `headers.get` returns and
JavaScript treats as falsy), yet the body returned by the login handler is
the upstream body unchanged — it carries no `xsrfToken` field at all, so in
particular not one equal to that header's value. -/
theorem login_blank_header_token_not_attached :
    headerGet [("XSRF-TOKEN", "")] "XSRF-TOKEN" = some ""
    ∧ loginHandler [("userName", JVal.str "u"), ("systemCode", JVal.str "c")]
        (.response 200 "OK" [("XSRF-TOKEN", "")] (.ok [("success", JVal.bool true)]))
      = ⟨200, [("success", JVal.bool true)]⟩
    ∧ lookupField (loginHandler [("userName", JVal.str "u"), ("systemCode", JVal.str "c")]
        (.response 200 "OK" [("XSRF-TOKEN", "")] (.ok [("success", JVal.bool true)]))).body
        "xsrfToken" = none :=
  ⟨rfl, rfl, rfl⟩

/-- C1 (amended): For every successful login (upstream 2xx with a parsed JSON
body), the returned body is the upstream body with `xsrfToken` set to the
value produced by the header chain `xsrf-token || XSRF-TOKEN || X-XSRF-TOKEN`;
whenever that chain produces a token it is non-empty and is the value of a
carried header with one of those (case-insensitively compared) names; and if
none of the three headers is present, the upstream body is returned unchanged.
A header carried with an empty value is treated as absent. -/
theorem login_token_extraction (req : JObj) (s : Nat) (st : String)
    (hdrs : List (String × String)) (data : JObj)
    (hU : jsTruthy (lookupField req "userName") = true)
    (hS : jsTruthy (lookupField req "systemCode") = true)
    (hok : okStatus s = true) :
    loginHandler req (.response s st hdrs (.ok data))
      = ⟨200, match extractXsrf hdrs with
              | some t => setField data "xsrfToken" (JVal.str t)
              | none => data⟩
    ∧ (∀ t, extractXsrf hdrs = some t →
        t ≠ "" ∧ ∃ nm, (nm, t) ∈ hdrs ∧
          (lowerName nm = "xsrf-token" ∨ lowerName nm = "x-xsrf-token"))
    ∧ ((∀ p ∈ hdrs, lowerName p.1 ≠ "xsrf-token" ∧ lowerName p.1 ≠ "x-xsrf-token") →
        loginHandler req (.response s st hdrs (.ok data)) = ⟨200, data⟩) := by
  have hmain : loginHandler req (.response s st hdrs (.ok data))
      = ⟨200, match extractXsrf hdrs with
              | some t => setField data "xsrfToken" (JVal.str t)
              | none => data⟩ := by
    cases hx : extractXsrf hdrs with
    | some t => simp [loginHandler, loginValidate, hU, hS, loginRespond, hok, hx]
    | none => simp [loginHandler, loginValidate, hU, hS, loginRespond, hok, hx]
  refine ⟨hmain, fun t ht => extractXsrf_some ht, fun habs => ?_⟩
  rw [hmain, extractXsrf_eq_none habs]

/-- Witness for C1 (amended): a concrete successful login whose upstream
carries `xsrf-token: token123` gets the token attached. -/
theorem login_token_extraction_witness :
    loginHandler [("userName", JVal.str "u"), ("systemCode", JVal.str "c")]
      (.response 200 "OK" [("xsrf-token", "token123")] (.ok [("success", JVal.bool true)]))
      = ⟨200, [("success", JVal.bool true), ("xsrfToken", JVal.str "token123")]⟩ := by
  have h := (login_token_extraction [("userName", JVal.str "u"), ("systemCode", JVal.str "c")]
    200 "OK" [("xsrf-token", "token123")] [("success", JVal.bool true)] rfl rfl rfl).1
  rw [h]
  rfl

end FusionSolar
